import Mathlib

/-!
A shallow embedding of the core of `pi_mqtt_gpio` (the sync/async bridge of
the raspberry_monitor gatekeeper process), together with theorems settling
the specification claims about it.

The embedding follows the Python source:
  * `server/hardware.py`  — `HardwareManager`: command queue, worker loop,
    dynamic command execution, GPIO event callbacks, worker lifecycle.
  * `server/mqtt.py`      — `MQTTManager`: event queue, publisher loop,
    reconnecting session loop, topic routing.
  * `server/models.py`    — payload dataclasses and their JSON form.
  * `server/main.py`      — the graceful `shutdown` handler.

Blocking queues, threads and the asyncio loop are modelled as explicit
state-machine steps over lists (the queues) so that thread interleavings are
explicit schedules of atomic actions.
-/

namespace PiMqttGpio

/-! ## Python value model

Configuration entries and command arguments are plain Python scalars.  Only
truthiness and (in)equality of these values matter to the embedded code. -/

/-- A Python scalar value, as found in config dicts and command dicts. -/
inductive PyVal where
  | none
  | bool (b : Bool)
  | int (n : Int)
  | str (s : String)
deriving DecidableEq, Repr

/-- Python truthiness of a scalar: `None`, `False`, `0` and the empty string
are falsy, everything else is truthy. -/
def truthy : PyVal → Bool
  | PyVal.none => false
  | PyVal.bool b => b
  | PyVal.int n => decide (n ≠ 0)
  | PyVal.str s => decide (s ≠ "")

/-- Python `dict.get(k)`: returns `None` when the key is absent. -/
def dictGet (d : List (String × PyVal)) (k : String) : PyVal :=
  match List.lookup k d with
  | Option.some v => v
  | Option.none => PyVal.none

/-- Python `d[k] = v`: overwrite in place when the key exists, append
otherwise (insertion order is preserved, as for a Python dict). -/
def dictSet {α β : Type} [DecidableEq α] : List (α × β) → α → β → List (α × β)
  | [], k, v => [(k, v)]
  | (k1, v1) :: rest, k, v =>
      if k1 = k then (k, v) :: rest else (k1, v1) :: dictSet rest k v

/-- A log record emitted through the `logging` module, tagged by level. -/
inductive LogEntry where
  | error (msg : String)
  | warning (msg : String)
  | info (msg : String)
  | debug (msg : String)
deriving DecidableEq, Repr

/-! ## Command execution (`HardwareManager._execute_command`)

A command is the dict built by the RPC layer: device name, method name (the
`args`/`kwargs` it also carries are passed through unchanged to the device
method, so in the model a device method's behaviour already accounts for
them).  A gpiozero device is modelled by the outcomes of the attributes a
command can name: invoking a method either returns a value or raises. -/

/-- A command dict as dequeued by the worker: `command.get("device")` and
`command.get("method")`. -/
structure Command where
  device : String
  method : String
deriving DecidableEq, Repr

/-- What invoking one method of a gpiozero device does. -/
inductive MethodOutcome where
  | returns (v : PyVal)
  | raises (msg : String)
deriving DecidableEq, Repr

/-- A gpiozero device object, by the methods `getattr` can find on it. -/
structure HwDevice where
  methods : List (String × MethodOutcome)
deriving DecidableEq, Repr

/-- Outcome of `_execute_command` for one command. -/
inductive ExecOutcome where
  | deviceNotFound
  | methodNotFound
  | raised (msg : String)
  | success (v : PyVal)
deriving DecidableEq, Repr

/-- True for the three failure kinds of `_execute_command`. -/
def ExecOutcome.isFailure : ExecOutcome → Bool
  | ExecOutcome.success _ => false
  | _ => true

/-- Result of `_execute_command`: the outcome plus the log records emitted. -/
structure ExecResult where
  outcome : ExecOutcome
  logs : List LogEntry
deriving DecidableEq, Repr

/-- `HardwareManager._execute_command`: look the device up in
`self.devices`; if absent log an error and return.  Look the method up with
`getattr(device_obj, method_name, None)`; if `None` log an error and return.
Invoke it; an exception is caught, logged and the error message returned.
All three failures are swallowed — nothing propagates to the caller. -/
def executeCommand (devices : List (String × HwDevice)) (c : Command) :
    ExecResult :=
  match List.lookup c.device devices with
  | Option.none =>
      { outcome := ExecOutcome.deviceNotFound,
        logs := [LogEntry.error ("Device " ++ c.device ++ " not found.")] }
  | Option.some dev =>
      match List.lookup c.method dev.methods with
      | Option.none =>
          { outcome := ExecOutcome.methodNotFound,
            logs := [LogEntry.error ("Method " ++ c.method ++
              " not found on device " ++ c.device)] }
      | Option.some (MethodOutcome.returns v) =>
          { outcome := ExecOutcome.success v,
            logs := [LogEntry.debug ("Attempting to execute command " ++
                c.method ++ " on device " ++ c.device),
              LogEntry.debug "Command executed successfully."] }
      | Option.some (MethodOutcome.raises m) =>
          { outcome := ExecOutcome.raised m,
            logs := [LogEntry.debug ("Attempting to execute command " ++
                c.method ++ " on device " ++ c.device),
              LogEntry.error ("Error executing command " ++ c.method ++
                " on device " ++ c.device ++ ": " ++ m)] }

/-! ## The worker loop (`HardwareManager._worker_loop`) as a state machine

The worker thread and its callers share two data points: the FIFO
`inbound_command_queue` (a sentinel is `None`, a real command `some c`) and
the `_worker_running` event.  One loop iteration has two observable steps —
the `while self._worker_running.is_set()` check and the
`get(timeout=0.1)`-and-process body — so a `stop_worker_thread` call can
interleave between them, exactly as in the threaded code. -/

/-- Where the worker thread currently is inside `_worker_loop`. -/
inductive WPhase where
  | atCheck
  | atGet
  | halted
deriving DecidableEq, Repr

/-- Shared state of the command queue, the running flag and the worker
thread, plus the observable history (commands executed in order, number of
`task_done` calls, log records). -/
structure WorkerState where
  queue : List (Option Command)
  running : Bool
  phase : WPhase
  executed : List Command
  taskDone : Nat
  logs : List LogEntry
deriving DecidableEq, Repr

/-- One atomic action on the shared state: a producer enqueuing a command,
`stop_worker_thread` clearing the flag and enqueuing the sentinel, the
worker evaluating the `while` condition, or the worker running one
get-and-process body. -/
inductive WorkerAction where
  | submit (c : Command)
  | stop
  | check
  | dequeue
deriving DecidableEq, Repr

/-- Small-step semantics of the worker loop and its environment.

`submit`: `inbound_command_queue.put(command)`.
`stop`: the body of `stop_worker_thread` when the thread is alive —
`self._worker_running.clear()` then `self.inbound_command_queue.put(None)`.
`check`: the `while self._worker_running.is_set()` test; on failure the
loop exits.
`dequeue`: the loop body — `get(timeout=0.1)`; an empty queue raises
`queue.Empty`, which is passed over; the `None` sentinel is acknowledged
with `task_done()` and breaks the loop; a real command is run through
`_execute_command` inside `try/except` and acknowledged with `task_done()`
exactly once, whatever the outcome. -/
def workerStep (devices : List (String × HwDevice)) (s : WorkerState) :
    WorkerAction → WorkerState
  | WorkerAction.submit c => { s with queue := s.queue ++ [Option.some c] }
  | WorkerAction.stop =>
      { s with running := false, queue := s.queue ++ [Option.none] }
  | WorkerAction.check =>
      match s.phase with
      | WPhase.atCheck =>
          if s.running then { s with phase := WPhase.atGet }
          else { s with phase := WPhase.halted }
      | _ => s
  | WorkerAction.dequeue =>
      match s.phase with
      | WPhase.atGet =>
          match s.queue with
          | [] => { s with phase := WPhase.atCheck }
          | Option.none :: rest =>
              { s with queue := rest,
                       taskDone := s.taskDone + 1,
                       phase := WPhase.halted,
                       logs := s.logs ++ [LogEntry.info
                         "Worker loop received shutdown signal. Unblocking..."] }
          | Option.some c :: rest =>
              let r := executeCommand devices c
              { s with queue := rest,
                       executed := s.executed ++ [c],
                       taskDone := s.taskDone + 1,
                       phase := WPhase.atCheck,
                       logs := s.logs ++ r.logs }
      | _ => s

/-- Run the shared-state machine over a schedule of interleaved actions. -/
def workerRun (devices : List (String × HwDevice)) (s : WorkerState)
    (acts : List WorkerAction) : WorkerState :=
  acts.foldl (workerStep devices) s

/-- State right after `start_worker_thread` on a fresh manager: empty queue,
running flag set, worker at the top of the loop. -/
def initialWorkerState : WorkerState :=
  { queue := [], running := true, phase := WPhase.atCheck,
    executed := [], taskDone := 0, logs := [] }

/-- An uninterrupted run of `n` worker iterations (condition check followed
by the get-and-process body). -/
def drainSchedule (n : Nat) : List WorkerAction :=
  (List.replicate n [WorkerAction.check, WorkerAction.dequeue]).flatten

/-! ## Payload model (`server/models.py`)

Every payload dataclass inherits `timestamp: float = time.time()` (seconds
since the epoch, captured when the object is constructed; modelled as a
rational).  The `SystemStatus` str-enum serializes as its string value, so
statuses are carried as strings. -/

/-- The tagged union of payload dataclasses.  Field order matches the
dataclass declarations (`kw_only` base field first). -/
inductive Payload where
  | deviceStatePayload (timestamp : ℚ) (device : String) (event : String)
      (value : PyVal)
  | telemetryPayload (timestamp : ℚ) (status : String) (cpuTemp : ℚ)
      (uptime : ℚ)
  | systemStatusPayload (timestamp : ℚ) (status : String)
  | logPayload (timestamp : ℚ) (level : String) (moduleName : String)
      (message : String)
  | rpcCommandPayload (timestamp : ℚ) (device : String) (method : String)
      (args : List PyVal) (kwargs : List (String × PyVal))
deriving DecidableEq, Repr

/-- The inherited `timestamp` field of a payload. -/
def Payload.timestamp : Payload → ℚ
  | Payload.deviceStatePayload t _ _ _ => t
  | Payload.telemetryPayload t _ _ _ => t
  | Payload.systemStatusPayload t _ => t
  | Payload.logPayload t _ _ _ => t
  | Payload.rpcCommandPayload t _ _ _ _ => t

/-- A JSON value, as produced by `json.dumps(asdict(payload))`. -/
inductive JVal where
  | jstr (s : String)
  | jnum (q : ℚ)
  | jbool (b : Bool)
  | jnull
  | jarr (xs : List JVal)
  | jobj (fields : List (String × JVal))

/-- JSON form of a Python scalar. -/
def pyValToJson : PyVal → JVal
  | PyVal.none => JVal.jnull
  | PyVal.bool b => JVal.jbool b
  | PyVal.int n => JVal.jnum n
  | PyVal.str s => JVal.jstr s

/-- `BasePayload.to_json`: `json.dumps(asdict(self))` — a single JSON object
whose keys are the dataclass fields in declaration order (the inherited
`timestamp` first).  `to_bytes` is this object serialized and UTF-8
encoded; the model stays at the JSON-object level, which the `json` library
maps bijectively to the emitted text. -/
def Payload.toJsonObj : Payload → List (String × JVal)
  | Payload.deviceStatePayload t d e v =>
      [("timestamp", JVal.jnum t), ("device", JVal.jstr d),
       ("event", JVal.jstr e), ("value", pyValToJson v)]
  | Payload.telemetryPayload t st cpu up =>
      [("timestamp", JVal.jnum t), ("status", JVal.jstr st),
       ("cpu_temp", JVal.jnum cpu), ("uptime", JVal.jnum up)]
  | Payload.systemStatusPayload t st =>
      [("timestamp", JVal.jnum t), ("status", JVal.jstr st)]
  | Payload.logPayload t lv md msg =>
      [("timestamp", JVal.jnum t), ("level", JVal.jstr lv),
       ("module", JVal.jstr md), ("message", JVal.jstr msg)]
  | Payload.rpcCommandPayload t d m args kwargs =>
      [("timestamp", JVal.jnum t), ("device", JVal.jstr d),
       ("method", JVal.jstr m),
       ("args", JVal.jarr (args.map pyValToJson)),
       ("kwargs", JVal.jobj (kwargs.map (fun kv => (kv.1, pyValToJson kv.2))))]

/-! ## The publisher loop (`MQTTManager._publisher_loop`) -/

/-- The topic configuration extracted in `MQTTManager.__init__`. -/
structure MQTTConfig where
  topicTemplate : String
  statusTopic : String
  telemetryTopic : String
deriving DecidableEq, Repr

/-- The defaults from `MQTTManager.__init__`:
`topic_pattern` = `pi/devices/{device}/state`, `status_topic` = `pi/status`,
`telemetry_topic` = `pi/system/telemetry`. -/
def defaultMQTTConfig : MQTTConfig :=
  { topicTemplate := "pi/devices/\x7bdevice\x7d/state",
    statusTopic := "pi/status",
    telemetryTopic := "pi/system/telemetry" }

/-- `self.topic_template.format(device=...)`: substitute the device id for
every `\x7bdevice\x7d` placeholder in the template. -/
def formatDeviceTopic (template device : String) : String :=
  template.replace "\x7bdevice\x7d" device

/-- The topic the publisher loop selects for a dequeued payload, `none` for
the unrecognized variants that fall through to `continue`. -/
def routeTopic (cfg : MQTTConfig) : Payload → Option String
  | Payload.deviceStatePayload _ d _ _ =>
      Option.some (formatDeviceTopic cfg.topicTemplate d)
  | Payload.telemetryPayload _ _ _ _ => Option.some cfg.telemetryTopic
  | Payload.systemStatusPayload _ _ => Option.some cfg.statusTopic
  | _ => Option.none

/-- Observable effects of one publisher-loop iteration. -/
inductive PublishEffect where
  | published (topic : String) (p : Payload)
  | logDebug (msg : String)
  | logWarning (msg : String)
  | taskDone
deriving DecidableEq, Repr

/-- One iteration of `_publisher_loop` on the payload it dequeued: route by
`isinstance`; an unrecognized variant hits the bare `continue` — no publish,
no log record, no `task_done`.  A routed payload is published, a debug line
is logged, and `event_queue.task_done()` is called. -/
def publisherStep (cfg : MQTTConfig) (event : Payload) : List PublishEffect :=
  match routeTopic cfg event with
  | Option.none => []
  | Option.some topic =>
      [PublishEffect.published topic event,
       PublishEffect.logDebug ("Published event to topic " ++ topic),
       PublishEffect.taskDone]

/-- The publisher loop consuming the event queue front to back (an
`asyncio.Queue` is FIFO and this loop is its only consumer). -/
def publisherRun (cfg : MQTTConfig) (events : List Payload) :
    List PublishEffect :=
  (events.map (publisherStep cfg)).flatten

/-- The `(topic, payload)` pairs actually handed to `client.publish`, in
order. -/
def publishedPairs (effs : List PublishEffect) : List (String × Payload) :=
  effs.filterMap fun e =>
    match e with
    | PublishEffect.published t p => Option.some (t, p)
    | _ => Option.none

/-- The topic a payload routes to together with the payload itself, used to
state order preservation of the publisher. -/
def routedPair (cfg : MQTTConfig) (e : Payload) : Option (String × Payload) :=
  (routeTopic cfg e).map fun t => (t, e)

/-! ## The session loop (`MQTTManager._main_loop`)

The loop body is `while True: try: connect / publish-online / publisher
loop, except CancelledError: raise, except Exception: log, sleep 5`.  The
publisher sub-loop never returns normally, so each pass of the `while` is
classified by how its connection attempt ends. -/

/-- How one pass of the `while True` connection loop ends: the connect
itself fails; the connection is established and later dies with an
exception; or the task is cancelled while connected (`stop()`). -/
inductive SessionEvent where
  | connectFailed (errMsg : String)
  | connectedThenDropped (errMsg : String)
  | connectedThenCancelled
deriving DecidableEq, Repr

/-- Observable effects of the session loop. -/
inductive SessionEffect where
  | willRegistered (topic : String) (status : String) (qos : Nat)
      (retainFlag : Bool)
  | publishedRetained (topic : String) (status : String) (retainFlag : Bool)
  | logError (msg : String)
  | sleepSeconds (n : ℚ)
deriving DecidableEq, Repr

/-- Result of one pass of the connection loop: its effects and whether the
`while True` loop exits (only a re-raised `CancelledError` does that). -/
structure SessionIterResult where
  effects : List SessionEffect
  exitLoop : Bool
deriving DecidableEq, Repr

/-- One pass of `_main_loop`'s `while True`.  On a successful connect the
client is constructed with the last-will `Will(status_topic, offline bytes,
qos=1, retain=True)` and immediately publishes the retained online status;
`CancelledError` is re-raised; any other exception is logged as `MQTT
Connection lost ... Retrying in 5s` followed by `asyncio.sleep(5)`, and the
loop continues. -/
def mainLoopIter (cfg : MQTTConfig) : SessionEvent → SessionIterResult
  | SessionEvent.connectFailed m =>
      { effects := [SessionEffect.logError ("MQTT Connection lost: " ++ m ++
          ". Retrying in 5s..."), SessionEffect.sleepSeconds 5],
        exitLoop := false }
  | SessionEvent.connectedThenDropped m =>
      { effects := [SessionEffect.willRegistered cfg.statusTopic "offline" 1
          true,
          SessionEffect.publishedRetained cfg.statusTopic "online" true,
          SessionEffect.logError ("MQTT Connection lost: " ++ m ++
            ". Retrying in 5s..."), SessionEffect.sleepSeconds 5],
        exitLoop := false }
  | SessionEvent.connectedThenCancelled =>
      { effects := [SessionEffect.willRegistered cfg.statusTopic "offline" 1
          true,
          SessionEffect.publishedRetained cfg.statusTopic "online" true],
        exitLoop := true }

/-- The connection loop over a sequence of passes: it stops early exactly
when a pass re-raises `CancelledError`. -/
def mainLoopRun (cfg : MQTTConfig) : List SessionEvent →
    List SessionEffect × Bool
  | [] => ([], false)
  | ev :: evs =>
      let r := mainLoopIter cfg ev
      if r.exitLoop then (r.effects, true)
      else
        let rest := mainLoopRun cfg evs
        (r.effects ++ rest.1, rest.2)

/-! ## The graceful shutdown handler (`server/main.py: shutdown`) -/

/-- Observable steps of the `shutdown` coroutine, in program order. -/
inductive ShutdownEffect where
  | logInfo (msg : String)
  | enqueuePayload (p : Payload)
  | sleepFor (secs : ℚ)
  | stopMQTT
  | stopWorker
  | cancelPendingTasks
  | stopLoop
deriving DecidableEq, Repr

/-- The body of `shutdown`, line by line: log the signal; build
`TelemetryPayload(status="shutting_down")` (captured at time `t1`) and hand
it to `mqtt_manager.publish_hardware_event`; log; build
`SystemStatusPayload(status="offline")` (captured at `t2`) and enqueue it
the same way; log; `await asyncio.sleep(0.1)`; `await mqtt_manager.stop()`;
`hardware_manager.stop_worker_thread()`; cancel and await the remaining
tasks; `loop.stop()`. -/
def shutdownSequence (t1 t2 : ℚ) : List ShutdownEffect :=
  [ShutdownEffect.logInfo "Received exit signal",
   ShutdownEffect.enqueuePayload (Payload.telemetryPayload t1 "shutting_down"
     0 0),
   ShutdownEffect.logInfo
     "publishing shutdown message to telemetry topic before stopping services",
   ShutdownEffect.enqueuePayload (Payload.systemStatusPayload t2 "offline"),
   ShutdownEffect.logInfo
     "publishing shutdown message to status topic before stopping services",
   ShutdownEffect.sleepFor (1 / 10),
   ShutdownEffect.stopMQTT,
   ShutdownEffect.stopWorker,
   ShutdownEffect.cancelPendingTasks,
   ShutdownEffect.stopLoop]

/-- The ordering-relevant milestones of the shutdown sequence, abstracted
from timestamps and log text. -/
inductive ShutdownKey where
  | telemetryEnqueued (status : String)
  | statusEnqueued (status : String)
  | flushDelay
  | mqttStopped
  | workerStopped
  | loopStopped
deriving DecidableEq, Repr

/-- Project a shutdown effect to its milestone, if it is one. -/
def shutdownKeyOf : ShutdownEffect → Option ShutdownKey
  | ShutdownEffect.enqueuePayload (Payload.telemetryPayload _ st _ _) =>
      Option.some (ShutdownKey.telemetryEnqueued st)
  | ShutdownEffect.enqueuePayload (Payload.systemStatusPayload _ st) =>
      Option.some (ShutdownKey.statusEnqueued st)
  | ShutdownEffect.enqueuePayload _ => Option.none
  | ShutdownEffect.sleepFor _ => Option.some ShutdownKey.flushDelay
  | ShutdownEffect.stopMQTT => Option.some ShutdownKey.mqttStopped
  | ShutdownEffect.stopWorker => Option.some ShutdownKey.workerStopped
  | ShutdownEffect.stopLoop => Option.some ShutdownKey.loopStopped
  | _ => Option.none

/-! ## Worker thread lifecycle (`start_worker_thread` / `stop_worker_thread`) -/

/-- The lifecycle-relevant state of a `HardwareManager`: whether
`_worker_thread` is a live thread, and whether `_worker_running` is set. -/
structure WorkerLifecycle where
  threadAlive : Bool
  runningFlag : Bool
deriving DecidableEq, Repr

/-- Result of a lifecycle call: the new state, the number of threads the
call spawned, whether it enqueued the sentinel, and what it logged. -/
structure LifecycleOutcome where
  state : WorkerLifecycle
  threadsSpawned : Nat
  sentinelEnqueued : Bool
  logs : List LogEntry
deriving DecidableEq, Repr

/-- `start_worker_thread`: when `_worker_thread is None or not is_alive()`
set the running flag, create and start exactly one new `threading.Thread`;
otherwise log a warning and do nothing. -/
def startWorkerThread (s : WorkerLifecycle) : LifecycleOutcome :=
  if s.threadAlive then
    { state := s, threadsSpawned := 0, sentinelEnqueued := false,
      logs := [LogEntry.warning
        "Attempted to start worker thread, but it is already running."] }
  else
    { state := { threadAlive := true, runningFlag := true },
      threadsSpawned := 1, sentinelEnqueued := false,
      logs := [LogEntry.info "Hardware worker thread started."] }

/-- `stop_worker_thread`: when the thread is alive, clear the flag, enqueue
the `None` sentinel and join; otherwise log a warning and do nothing. -/
def stopWorkerThread (s : WorkerLifecycle) : LifecycleOutcome :=
  if s.threadAlive then
    { state := { threadAlive := false, runningFlag := false },
      threadsSpawned := 0, sentinelEnqueued := true,
      logs := [LogEntry.info "Hardware worker thread stopped."] }
  else
    { state := s, threadsSpawned := 0, sentinelEnqueued := false,
      logs := [LogEntry.warning
        "Attempted to stop worker thread, but it was not running."] }

/-! ## Device initialization (`HardwareManager.initialize_gpio_devices`) -/

/-- The keys of the `DEVICE_CLASSES` dict: the gpiozero classes a config
entry may name. -/
def deviceClassNames : List String := ["LED", "Button", "Motor"]

/-- A successfully constructed gpiozero device, as recorded in
`self.devices`. -/
structure InitializedDevice where
  typeName : String
  pin : PyVal
deriving DecidableEq, Repr

/-- Log records emitted by `initialize_gpio_devices`. -/
inductive InitEvent where
  | errorInvalidConfig (conf : List (String × PyVal))
  | errorUnknownType (typeName : PyVal)
  | errorInitFailed (name : PyVal)
  | infoInitialized (name : PyVal)
deriving DecidableEq, Repr

/-- The devices dict built so far plus the log records, threaded through the
`for dev_conf in device_config` loop. -/
structure InitState where
  devices : List (PyVal × InitializedDevice)
  logs : List InitEvent
deriving DecidableEq, Repr

/-- One iteration of the loop over `dev_conf` entries, as the update it
makes to `self.devices` and the log records it emits.  The completeness
check is `if not all([name, pin, type_name])` — Python truthiness over the
three looked-up values; a falsy value (missing key, but also pin `0` or an
empty name) logs `Invalid device config` and skips the entry.  A truthy
`type` not naming a device class (looked up in `DEVICE_CLASSES`, whose keys
are strings) logs `Unknown device type` and skips.  Construction
`device_class(pin)` may raise, which is caught and logged; `raisesOnInit`
says whether it does for a given class and pin. -/
def initGpioOne (raisesOnInit : String → PyVal → Bool)
    (devices : List (PyVal × InitializedDevice))
    (conf : List (String × PyVal)) :
    List (PyVal × InitializedDevice) × List InitEvent :=
  let name := dictGet conf "name"
  let pin := dictGet conf "pin"
  let typeName := dictGet conf "type"
  if !(truthy name && truthy pin && truthy typeName) then
    (devices, [InitEvent.errorInvalidConfig conf])
  else
    match typeName with
    | PyVal.str t =>
        if t ∈ deviceClassNames then
          if raisesOnInit t pin then
            (devices, [InitEvent.errorInitFailed name])
          else
            (dictSet devices name { typeName := t, pin := pin },
             [InitEvent.infoInitialized name])
        else (devices, [InitEvent.errorUnknownType typeName])
    | _ => (devices, [InitEvent.errorUnknownType typeName])

/-- One iteration of the loop, threaded through the accumulated state. -/
def initGpioStep (raisesOnInit : String → PyVal → Bool) (st : InitState)
    (conf : List (String × PyVal)) : InitState :=
  { devices := (initGpioOne raisesOnInit st.devices conf).1,
    logs := st.logs ++ (initGpioOne raisesOnInit st.devices conf).2 }

/-- `initialize_gpio_devices` over `config.get("devices", [])`, starting
from the empty `self.devices`. -/
def initGpioDevices (raisesOnInit : String → PyVal → Bool)
    (configs : List (List (String × PyVal))) : InitState :=
  configs.foldl (initGpioStep raisesOnInit) { devices := [], logs := [] }

/-! ## The GPIO event callback (`setup_gpio_callbacks` /
`generic_event_handler`)

Two facts about the callback path are modelled from the source: the Python
call binding of the handler against the arguments pre-bound in
`setup_gpio_callbacks`, and the attribute lookup the handler performs on
`self`. -/

/-- The parameter names of `generic_event_handler` after `self`:
`(device_name, device, action)`.  There is no `event` parameter and no
`**kwargs`. -/
def genericEventHandlerParams : List String := ["device_name", "device",
  "action"]

/-- Python call binding for a plain signature (no defaults, no `*args` /
`**kwargs`): `numPos` positional arguments fill the leading parameters and
`kwNames` are the keyword arguments.  The call raises `TypeError` — i.e.
this returns `false` — when a keyword does not name a parameter, a keyword
hits a parameter already filled positionally, too many positionals are
given, or a parameter is left without an argument. -/
def bindCallOk (params : List String) (numPos : Nat) (kwNames : List String) :
    Bool :=
  decide (numPos ≤ params.length) &&
  kwNames.all (fun k => params.contains k) &&
  kwNames.all (fun k => !(params.take numPos).contains k) &&
  (params.drop numPos).all (fun p => kwNames.contains p)

/-- The instance attributes assigned in `HardwareManager.__init__` (class
body annotations carry no values, so nothing else is readable on a fresh
instance). -/
def hardwareManagerInitAttrs : List String :=
  ["config", "async_loop", "devices", "inbound_command_queue",
   "_worker_thread", "_worker_running", "_publish_hardware_event",
   "_publish_callback"]

/-- Observable effects of `generic_event_handler` once its body runs. -/
inductive HandlerEffect where
  | callSoonThreadsafe (p : Payload)
  | logDebug (msg : String)
  | logError (msg : String)
deriving DecidableEq, Repr

/-- True for the thread-safe hand-off effect. -/
def HandlerEffect.isCallSoon : HandlerEffect → Bool
  | HandlerEffect.callSoonThreadsafe _ => true
  | _ => false

/-- The body of `generic_event_handler`: build
`DeviceStatePayload(device=device_name, event=action, value=device.value)`
(timestamp captured at `t`), then inside `try` evaluate
`self.async_loop.call_soon_threadsafe(self.publish_callback, event)`.  The
attribute access `self.publish_callback` is looked up among the instance
attributes `attrs`; when absent it raises `AttributeError`, which the
`except` clause catches and logs — `call_soon_threadsafe` is then never
invoked. -/
def genericEventHandler (attrs : List String) (t : ℚ) (deviceName : String)
    (deviceValue : PyVal) (action : String) : List HandlerEffect :=
  let event := Payload.deviceStatePayload t deviceName action deviceValue
  if attrs.contains "publish_callback" then
    [HandlerEffect.callSoonThreadsafe event,
     HandlerEffect.logDebug "Event published"]
  else
    [HandlerEffect.logError
      "Error publishing event from hardware thread: AttributeError"]

/-! ## Concrete instances used by witnesses and counterexamples

These mirror the objects of the repository's own tests: a mock `LED` on pin
17 whose `on`/`off` succeed and whose `blink` raises, and the commands the
tests enqueue for it. -/

/-- A mock gpiozero LED: `on` and `off` succeed, `blink` raises. -/
def demoLed : HwDevice :=
  { methods := [("on", MethodOutcome.returns (PyVal.bool true)),
      ("off", MethodOutcome.returns (PyVal.bool false)),
      ("blink", MethodOutcome.raises "hardware failure")] }

/-- A registry holding just the mock LED under the name of the tests. -/
def demoDevices : List (String × HwDevice) := [("led_17", demoLed)]

/-- The `on` command of the tests. -/
def cmdOn : Command := { device := "led_17", method := "on" }

/-- The `off` command of the tests. -/
def cmdOff : Command := { device := "led_17", method := "off" }

/-- A command whose execution raises inside the device method. -/
def cmdBlink : Command := { device := "led_17", method := "blink" }

/-- A command naming a device that was never initialized. -/
def cmdUnknownDevice : Command := { device := "nope", method := "on" }

/-- A running worker at the loop condition with two commands queued. -/
def twoQueuedState : WorkerState :=
  { queue := [Option.some cmdOn, Option.some cmdOff], running := true,
    phase := WPhase.atCheck, executed := [], taskDone := 0, logs := [] }

/-- A worker already inside `get` whose running flag has been cleared. -/
def stoppedAtGetState : WorkerState :=
  { queue := [Option.some cmdOn, Option.none], running := false,
    phase := WPhase.atGet, executed := [], taskDone := 0, logs := [] }

/-- A running worker about to dequeue a failing command followed by a
valid one. -/
def failThenGoodState : WorkerState :=
  { queue := [Option.some cmdUnknownDevice, Option.some cmdOn],
    running := true, phase := WPhase.atGet, executed := [], taskDone := 0,
    logs := [] }

/-- A payload variant the publisher loop does not recognize. -/
def unrecognizedPayload : Payload :=
  Payload.logPayload 0 "INFO" "server.main" "hello"

/-- A second unrecognized variant, an RPC command payload. -/
def unrecognizedRpcPayload : Payload :=
  Payload.rpcCommandPayload 0 "led_17" "on" [] []

/-- A concrete device-state payload, the round-trip example of the spec. -/
def demoDeviceStatePayload : Payload :=
  Payload.deviceStatePayload 0 "d1" "activated" (PyVal.bool true)

/-- A lifecycle state with a live worker thread. -/
def aliveLifecycle : WorkerLifecycle :=
  { threadAlive := true, runningFlag := true }

/-- A lifecycle state with no live worker thread. -/
def deadLifecycle : WorkerLifecycle :=
  { threadAlive := false, runningFlag := false }

/-- A config entry whose three keys are all present but whose pin is the
falsy (yet electrically valid) GPIO number 0. -/
def pinZeroButtonConf : List (String × PyVal) :=
  [("name", PyVal.str "button_0"), ("pin", PyVal.int 0),
   ("type", PyVal.str "Button")]

/-- A complete, truthy LED config entry. -/
def ledConf : List (String × PyVal) :=
  [("name", PyVal.str "led_17"), ("pin", PyVal.int 17),
   ("type", PyVal.str "LED")]

/-- Two consecutive failed connection-loop passes, neither cancelled. -/
def demoSessionEvents : List SessionEvent :=
  [SessionEvent.connectFailed "connection refused",
   SessionEvent.connectedThenDropped "connection reset"]

/-! ## Helper lemmas -/

/-- Unfold one iteration of the drain schedule. -/
lemma drainSchedule_succ (n : Nat) :
    drainSchedule (n + 1) =
      WorkerAction.check :: WorkerAction.dequeue :: drainSchedule n := by
  simp [drainSchedule, List.replicate_succ]

/-- A full uninterrupted drain of a queue holding exactly the commands
`cmds`: they are executed front to back, each acknowledged once, and the
queue ends empty with the worker back at the loop condition. -/
lemma workerRun_drain (devices : List (String × HwDevice)) :
    ∀ (cmds : List Command) (s : WorkerState),
      s.phase = WPhase.atCheck → s.running = true →
      s.queue = cmds.map Option.some →
      workerRun devices s (drainSchedule cmds.length) =
        { queue := [],
          running := true,
          phase := WPhase.atCheck,
          executed := s.executed ++ cmds,
          taskDone := s.taskDone + cmds.length,
          logs := s.logs ++
            (cmds.map (fun c => (executeCommand devices c).logs)).flatten } := by
  intro cmds
  induction cmds with
  | nil =>
      intro s h1 h2 h3
      obtain ⟨q, r, ph, ex, td, lg⟩ := s
      simp only at h1 h2 h3
      subst h1; subst h2
      simp at h3
      subst h3
      simp [drainSchedule, workerRun]
  | cons c cs ih =>
      intro s h1 h2 h3
      rw [List.length_cons, drainSchedule_succ]
      obtain ⟨q, r, ph, ex, td, lg⟩ := s
      simp only at h1 h2 h3
      subst h1; subst h2; subst h3
      have step2 :
          workerRun devices
              ⟨(c :: cs).map Option.some, true, WPhase.atCheck, ex, td, lg⟩
              (WorkerAction.check :: WorkerAction.dequeue ::
                drainSchedule cs.length) =
            workerRun devices
              ⟨cs.map Option.some, true, WPhase.atCheck, ex ++ [c], td + 1,
                lg ++ (executeCommand devices c).logs⟩
              (drainSchedule cs.length) := by
        simp [workerRun, workerStep]
      rw [step2, ih _ rfl rfl rfl]
      simp [List.append_assoc, Nat.add_comm, Nat.add_assoc, Nat.add_left_comm]

/-- `publishedPairs` splits over concatenation of effect lists. -/
lemma publishedPairs_append (a b : List PublishEffect) :
    publishedPairs (a ++ b) = publishedPairs a ++ publishedPairs b := by
  simp [publishedPairs, List.filterMap_append]

/-- One publisher iteration publishes exactly the routed pair of the
dequeued payload (or nothing, for an unrecognized variant). -/
lemma publishedPairs_step (cfg : MQTTConfig) (e : Payload) :
    publishedPairs (publisherStep cfg e) = (routedPair cfg e).toList := by
  unfold publisherStep routedPair
  cases routeTopic cfg e <;> simp [publishedPairs]

/-- The publisher emits, in order, the routed pair of every payload that
was in its queue, preserving the enqueue order. -/
lemma publishedPairs_run (cfg : MQTTConfig) (events : List Payload) :
    publishedPairs (publisherRun cfg events) =
      events.filterMap (routedPair cfg) := by
  induction events with
  | nil => simp [publisherRun, publishedPairs]
  | cons e es ih =>
      simp only [publisherRun, List.map_cons, List.flatten_cons,
        List.filterMap_cons]
      rw [publishedPairs_append]
      rw [publisherRun] at ih
      rw [ih, publishedPairs_step]
      cases h : routeTopic cfg e <;> simp [routedPair, h]

/-- Each of the three failure outcomes of `_execute_command` emits an error
log record. -/
lemma executeCommand_failure_logs (devices : List (String × HwDevice))
    (c : Command)
    (h : (executeCommand devices c).outcome.isFailure = true) :
    ∃ m, LogEntry.error m ∈ (executeCommand devices c).logs := by
  unfold executeCommand at h ⊢
  rcases h1 : List.lookup c.device devices with _ | dev
  · simp [h1]
  · simp only [h1] at h ⊢
    rcases h2 : List.lookup c.method dev.methods with _ | mo
    · simp [h2]
    · simp only [h2] at h ⊢
      cases mo with
      | returns v => simp [ExecOutcome.isFailure] at h
      | raises m => simp

/-- The connection loop processes every pass and keeps looping as long as no
pass ends in cancellation. -/
lemma mainLoopRun_no_cancel (cfg : MQTTConfig) :
    ∀ evs : List SessionEvent,
      (∀ ev ∈ evs, ev ≠ SessionEvent.connectedThenCancelled) →
      (mainLoopRun cfg evs).2 = false := by
  intro evs
  induction evs with
  | nil => intro _; rfl
  | cons ev rest ih =>
      intro h
      have h1 := h ev (List.mem_cons_self ev rest)
      have h2 : (mainLoopIter cfg ev).exitLoop = false := by
        cases ev with
        | connectFailed m => rfl
        | connectedThenDropped m => rfl
        | connectedThenCancelled => exact absurd rfl h1
      show (mainLoopRun cfg (ev :: rest)).2 = false
      rw [mainLoopRun]
      simp only [h2, if_neg]
      exact ih fun e he => h e (List.mem_cons_of_mem ev he)

/-- Folding the device-initialization loop from accumulated logs `l` only
prefixes `l` to the logs of folding from empty logs; the devices dict does
not depend on the logs. -/
lemma initGpio_foldl_logs (f : String → PyVal → Bool) :
    ∀ (cs : List (List (String × PyVal)))
      (d : List (PyVal × InitializedDevice)) (l : List InitEvent),
      List.foldl (initGpioStep f) { devices := d, logs := l } cs =
        { devices :=
            (List.foldl (initGpioStep f) { devices := d, logs := [] } cs).devices,
          logs := l ++
            (List.foldl (initGpioStep f) { devices := d, logs := [] } cs).logs } := by
  intro cs
  induction cs with
  | nil => intro d l; simp
  | cons c cs ih =>
      intro d l
      rw [List.foldl_cons, List.foldl_cons]
      show List.foldl (initGpioStep f) (initGpioStep f ⟨d, l⟩ c) cs = _
      have hstep : initGpioStep f ⟨d, l⟩ c =
          ⟨(initGpioOne f d c).1, l ++ (initGpioOne f d c).2⟩ := rfl
      have hstep0 : initGpioStep f ⟨d, []⟩ c =
          ⟨(initGpioOne f d c).1, (initGpioOne f d c).2⟩ := by
        simp [initGpioStep]
      rw [hstep, hstep0, ih _ ((initGpioOne f d c).2),
        ih _ (l ++ (initGpioOne f d c).2)]
      simp

/-! ## Claim theorems -/

/-- C1: for every sequence of commands in the queue of a running worker, an
uninterrupted run of the worker loop executes them in exact submission
order and leaves the command queue empty (acknowledging each exactly once);
and for every sequence of payloads enqueued to the event queue, the
publisher loop publishes them in exact enqueue order. -/
theorem c1_commands_and_events_fifo (devices : List (String × HwDevice))
    (cmds : List Command) (s : WorkerState)
    (hphase : s.phase = WPhase.atCheck) (hrun : s.running = true)
    (hqueue : s.queue = cmds.map Option.some)
    (cfg : MQTTConfig) (events : List Payload) :
    ((workerRun devices s (drainSchedule cmds.length)).executed =
        s.executed ++ cmds ∧
      (workerRun devices s (drainSchedule cmds.length)).queue = [] ∧
      (workerRun devices s (drainSchedule cmds.length)).taskDone =
        s.taskDone + cmds.length) ∧
    publishedPairs (publisherRun cfg events) =
      events.filterMap (routedPair cfg) := by
  refine ⟨?_, publishedPairs_run cfg events⟩
  rw [workerRun_drain devices cmds s hphase hrun hqueue]
  exact ⟨rfl, rfl, rfl⟩

/-- Witness for C1: a concrete two-command queue is drained in submission
order, and a concrete event queue is published in enqueue order. -/
theorem c1_commands_and_events_fifo_witness :
    twoQueuedState.phase = WPhase.atCheck ∧
    twoQueuedState.running = true ∧
    twoQueuedState.queue = [cmdOn, cmdOff].map Option.some ∧
    (((workerRun demoDevices twoQueuedState
          (drainSchedule [cmdOn, cmdOff].length)).executed =
        twoQueuedState.executed ++ [cmdOn, cmdOff] ∧
      (workerRun demoDevices twoQueuedState
          (drainSchedule [cmdOn, cmdOff].length)).queue = [] ∧
      (workerRun demoDevices twoQueuedState
          (drainSchedule [cmdOn, cmdOff].length)).taskDone =
        twoQueuedState.taskDone + [cmdOn, cmdOff].length) ∧
    publishedPairs (publisherRun defaultMQTTConfig
        [demoDeviceStatePayload, unrecognizedPayload]) =
      [demoDeviceStatePayload, unrecognizedPayload].filterMap
        (routedPair defaultMQTTConfig)) :=
  ⟨rfl, rfl, rfl,
    c1_commands_and_events_fifo demoDevices [cmdOn, cmdOff] twoQueuedState
      rfl rfl rfl defaultMQTTConfig
      [demoDeviceStatePayload, unrecognizedPayload]⟩

/-- C2 counterexample: two commands sit in the queue when
`stop_worker_thread` runs (clearing the flag, then enqueuing the sentinel);
the worker is between iterations, observes the cleared flag at the `while`
condition and halts — it terminates, but neither command enqueued strictly
before the sentinel has been executed, and both are still queued. -/
theorem c2_stop_does_not_drain_counterexample :
    (workerRun demoDevices twoQueuedState
        [WorkerAction.stop, WorkerAction.check]).phase = WPhase.halted ∧
    (workerRun demoDevices twoQueuedState
        [WorkerAction.stop, WorkerAction.check]).executed = [] ∧
    (workerRun demoDevices twoQueuedState
        [WorkerAction.stop, WorkerAction.check]).queue =
      [Option.some cmdOn, Option.some cmdOff, Option.none] :=
  ⟨rfl, rfl, rfl⟩

/-- C2 (amended): once `stop_worker_thread` has cleared the running flag,
the worker halts within one further loop iteration — bounded time, because
the condition is re-checked each iteration and the sentinel unblocks a
pending `get` — but draining is not guaranteed: at most one more command is
executed after the flag is cleared, however many were enqueued before the
sentinel. -/
theorem c2_amended_bounded_stop (devices : List (String × HwDevice))
    (s : WorkerState) (h : s.running = false) :
    (workerRun devices s [WorkerAction.check, WorkerAction.dequeue,
        WorkerAction.check]).phase = WPhase.halted ∧
    (workerRun devices s [WorkerAction.check, WorkerAction.dequeue,
        WorkerAction.check]).executed.length ≤ s.executed.length + 1 := by
  obtain ⟨q, r, ph, ex, td, lg⟩ := s
  simp only at h
  subst h
  rcases q with _ | ⟨_ | c, rest⟩ <;> cases ph <;>
    constructor <;> simp [workerRun, workerStep, Nat.le_succ]

/-- Witness for C2's amended theorem: a stopped worker inside `get` with a
command and the sentinel still queued halts after one more iteration,
having executed at most one command. -/
theorem c2_amended_bounded_stop_witness :
    stoppedAtGetState.running = false ∧
    ((workerRun demoDevices stoppedAtGetState [WorkerAction.check,
        WorkerAction.dequeue, WorkerAction.check]).phase = WPhase.halted ∧
      (workerRun demoDevices stoppedAtGetState [WorkerAction.check,
          WorkerAction.dequeue, WorkerAction.check]).executed.length ≤
        stoppedAtGetState.executed.length + 1) :=
  ⟨rfl, c2_amended_bounded_stop demoDevices stoppedAtGetState rfl⟩

/-- C3: the spec is the intent, but the code cannot deliver an edge event
to the cooperative loop.  First, the callbacks installed by
`setup_gpio_callbacks` pre-bind the keyword `event=...`, which is not a
parameter of `generic_event_handler` (its third parameter is `action`), so
invoking the callback — with zero or one further positional argument, as
gpiozero does — fails Python call binding with a `TypeError`.  Second, even
when the handler body runs, it reads `self.publish_callback`, which
`__init__` never assigns (it assigns `_publish_callback`), so the
`AttributeError` is caught and logged and `call_soon_threadsafe` is never
invoked on any input. -/
theorem c3_event_callback_never_reaches_loop :
    bindCallOk genericEventHandlerParams 2 ["event"] = false ∧
    bindCallOk genericEventHandlerParams 3 ["event"] = false ∧
    hardwareManagerInitAttrs.contains "publish_callback" = false ∧
    (genericEventHandler hardwareManagerInitAttrs 0 "button_27"
        (PyVal.bool true) "pressed").all (fun e => !e.isCallSoon) = true ∧
    HandlerEffect.logError
        "Error publishing event from hardware thread: AttributeError" ∈
      genericEventHandler hardwareManagerInitAttrs 0 "button_27"
        (PyVal.bool true) "pressed" :=
  ⟨by decide, by decide, by decide, by decide, by decide⟩

/-- C4: a dequeued command failing in any of the three ways (unknown
device, unknown method, method raising) leaves an error log record, is
acknowledged with `task_done` exactly once, and returns the worker to the
loop condition; the next queued command is then dequeued and executed, so a
failing command never halts the worker loop. -/
theorem c4_failing_command_handled (devices : List (String × HwDevice))
    (c c2 : Command) (rest : List (Option Command)) (s : WorkerState)
    (hphase : s.phase = WPhase.atGet)
    (hqueue : s.queue = Option.some c :: Option.some c2 :: rest)
    (hrun : s.running = true)
    (hfail : (executeCommand devices c).outcome.isFailure = true) :
    (workerStep devices s WorkerAction.dequeue).taskDone = s.taskDone + 1 ∧
    (workerStep devices s WorkerAction.dequeue).phase = WPhase.atCheck ∧
    (∃ m, LogEntry.error m ∈ (workerStep devices s WorkerAction.dequeue).logs) ∧
    (workerRun devices s [WorkerAction.dequeue, WorkerAction.check,
        WorkerAction.dequeue]).executed = s.executed ++ [c, c2] ∧
    (workerRun devices s [WorkerAction.dequeue, WorkerAction.check,
        WorkerAction.dequeue]).taskDone = s.taskDone + 2 := by
  obtain ⟨q, r, ph, ex, td, lg⟩ := s
  simp only at hphase hqueue hrun
  subst hphase; subst hqueue; subst hrun
  obtain ⟨m, hm⟩ := executeCommand_failure_logs devices c hfail
  refine ⟨rfl, rfl, ⟨m, ?_⟩, ?_, ?_⟩
  · show LogEntry.error m ∈ lg ++ (executeCommand devices c).logs
    exact List.mem_append_right lg hm
  · simp [workerRun, workerStep, List.append_assoc]
  · simp [workerRun, workerStep, Nat.add_assoc]

/-- Witness for C4: the unknown-device command fails, is acknowledged once,
and the valid `on` command right after it is still executed. -/
theorem c4_failing_command_handled_witness :
    failThenGoodState.phase = WPhase.atGet ∧
    failThenGoodState.queue =
      Option.some cmdUnknownDevice :: Option.some cmdOn :: [] ∧
    failThenGoodState.running = true ∧
    (executeCommand demoDevices cmdUnknownDevice).outcome.isFailure = true ∧
    ((workerStep demoDevices failThenGoodState WorkerAction.dequeue).taskDone =
        failThenGoodState.taskDone + 1 ∧
      (workerStep demoDevices failThenGoodState WorkerAction.dequeue).phase =
        WPhase.atCheck ∧
      (∃ m, LogEntry.error m ∈
        (workerStep demoDevices failThenGoodState WorkerAction.dequeue).logs) ∧
      (workerRun demoDevices failThenGoodState [WorkerAction.dequeue,
          WorkerAction.check, WorkerAction.dequeue]).executed =
        failThenGoodState.executed ++ [cmdUnknownDevice, cmdOn] ∧
      (workerRun demoDevices failThenGoodState [WorkerAction.dequeue,
          WorkerAction.check, WorkerAction.dequeue]).taskDone =
        failThenGoodState.taskDone + 2) :=
  ⟨rfl, rfl, rfl, by decide,
    c4_failing_command_handled demoDevices cmdUnknownDevice cmdOn []
      failThenGoodState rfl rfl rfl (by decide)⟩

/-- C5 counterexample: a dequeued payload of an unrecognized variant
produces no effect at all — it is dropped by the bare `continue`, with no
warning logged (and no `task_done` call), contradicting the claimed logged
warning. -/
theorem c5_unknown_variant_dropped_silently_counterexample :
    publisherRun defaultMQTTConfig [unrecognizedPayload] = [] := rfl

/-- C5 (amended): a dequeued `DeviceStatePayload` is published on the topic
template instantiated with its device id, a `TelemetryPayload` on the fixed
telemetry topic, a `SystemStatusPayload` on the fixed status topic, each
acknowledged once; a payload of any other variant is not published but
dropped silently — no warning is logged and `task_done` is not called for
it. -/
theorem c5_amended_variant_routing (cfg : MQTTConfig) (p : Payload) :
    (∀ t d e v, p = Payload.deviceStatePayload t d e v →
      publishedPairs (publisherStep cfg p) =
        [(formatDeviceTopic cfg.topicTemplate d, p)]) ∧
    (∀ t st cpu up, p = Payload.telemetryPayload t st cpu up →
      publishedPairs (publisherStep cfg p) = [(cfg.telemetryTopic, p)]) ∧
    (∀ t st, p = Payload.systemStatusPayload t st →
      publishedPairs (publisherStep cfg p) = [(cfg.statusTopic, p)]) ∧
    (routeTopic cfg p = Option.none → publisherStep cfg p = []) ∧
    ((routeTopic cfg p).isSome = true →
      (publisherStep cfg p).count PublishEffect.taskDone = 1) := by
  refine ⟨?_, ?_, ?_, ?_, ?_⟩
  · rintro t d e v rfl; rfl
  · rintro t st cpu up rfl; rfl
  · rintro t st rfl; rfl
  · intro h; simp [publisherStep, h]
  · intro h
    rcases h2 : routeTopic cfg p with _ | topic
    · rw [h2] at h; simp at h
    · simp [publisherStep, h2, List.count_cons]

/-- Witness for C5's amended theorem: the device-state example is published
on the templated topic, and an RPC-command payload is dropped with no
effect. -/
theorem c5_amended_variant_routing_witness :
    publishedPairs (publisherStep defaultMQTTConfig demoDeviceStatePayload) =
      [(formatDeviceTopic defaultMQTTConfig.topicTemplate "d1",
        demoDeviceStatePayload)] ∧
    publisherStep defaultMQTTConfig unrecognizedRpcPayload = [] :=
  ⟨(c5_amended_variant_routing defaultMQTTConfig demoDeviceStatePayload).1
      0 "d1" "activated" (PyVal.bool true) rfl,
    (c5_amended_variant_routing defaultMQTTConfig
        unrecognizedRpcPayload).2.2.2.1 rfl⟩

/-- C6: the shutdown handler, in this exact order, enqueues the Telemetry
payload with status `shutting_down`, then the SystemStatus payload with
status `offline`, then sleeps briefly to let both flush, and only then
stops the MQTT manager (and afterwards the worker and the loop); and the
FIFO publisher publishes those two payloads in that same order, so both go
out, telemetry first, before the session is closed. -/
theorem c6_shutdown_order (t1 t2 : ℚ) (cfg : MQTTConfig) :
    (shutdownSequence t1 t2).filterMap shutdownKeyOf =
      [ShutdownKey.telemetryEnqueued "shutting_down",
       ShutdownKey.statusEnqueued "offline", ShutdownKey.flushDelay,
       ShutdownKey.mqttStopped, ShutdownKey.workerStopped,
       ShutdownKey.loopStopped] ∧
    publishedPairs (publisherRun cfg
        [Payload.telemetryPayload t1 "shutting_down" 0 0,
         Payload.systemStatusPayload t2 "offline"]) =
      [(cfg.telemetryTopic, Payload.telemetryPayload t1 "shutting_down" 0 0),
       (cfg.statusTopic, Payload.systemStatusPayload t2 "offline")] :=
  ⟨rfl, rfl⟩

/-- C7: every successful connection first carries the retained offline
last-will registration and then publishes the retained online status; a
connection error (non-cancellation) logs the error, sleeps the fixed 5
seconds and leaves the loop running — over any sequence of non-cancelled
passes the session loop never terminates. -/
theorem c7_session_loop_resilient (cfg : MQTTConfig) (m : String)
    (evs : List SessionEvent)
    (hnc : ∀ ev ∈ evs, ev ≠ SessionEvent.connectedThenCancelled) :
    (mainLoopIter cfg (SessionEvent.connectedThenDropped m)).effects.take 2 =
      [SessionEffect.willRegistered cfg.statusTopic "offline" 1 true,
       SessionEffect.publishedRetained cfg.statusTopic "online" true] ∧
    (mainLoopIter cfg SessionEvent.connectedThenCancelled).effects.take 2 =
      [SessionEffect.willRegistered cfg.statusTopic "offline" 1 true,
       SessionEffect.publishedRetained cfg.statusTopic "online" true] ∧
    (mainLoopIter cfg (SessionEvent.connectFailed m)).exitLoop = false ∧
    (mainLoopIter cfg (SessionEvent.connectedThenDropped m)).exitLoop =
      false ∧
    SessionEffect.logError ("MQTT Connection lost: " ++ m ++
        ". Retrying in 5s...") ∈
      (mainLoopIter cfg (SessionEvent.connectFailed m)).effects ∧
    (mainLoopIter cfg (SessionEvent.connectFailed m)).effects.getLast? =
      Option.some (SessionEffect.sleepSeconds 5) ∧
    (mainLoopIter cfg
        (SessionEvent.connectedThenDropped m)).effects.getLast? =
      Option.some (SessionEffect.sleepSeconds 5) ∧
    (mainLoopRun cfg evs).2 = false := by
  refine ⟨rfl, rfl, rfl, rfl, ?_, ?_, ?_,
    mainLoopRun_no_cancel cfg evs hnc⟩
  · exact List.Mem.head _
  · rfl
  · rfl

/-- Witness for C7: two concrete failed passes are both survived. -/
theorem c7_session_loop_resilient_witness :
    (∀ ev ∈ demoSessionEvents,
      ev ≠ SessionEvent.connectedThenCancelled) ∧
    (mainLoopRun defaultMQTTConfig demoSessionEvents).2 = false :=
  ⟨by decide,
    (c7_session_loop_resilient defaultMQTTConfig "connection refused"
        demoSessionEvents (by decide)).2.2.2.2.2.2.2⟩

/-- C8: every payload variant serializes to a JSON object whose `timestamp`
field is the numeric capture time in seconds since the epoch (the same
inherited field for all variants); the concrete DeviceState example becomes
the JSON object with fields device, event, value and numeric timestamp. -/
theorem c8_payload_json (t : ℚ) (p : Payload) :
    (Payload.deviceStatePayload t "d1" "activated"
        (PyVal.bool true)).toJsonObj =
      [("timestamp", JVal.jnum t), ("device", JVal.jstr "d1"),
       ("event", JVal.jstr "activated"), ("value", JVal.jbool true)] ∧
    List.lookup "timestamp" p.toJsonObj =
      Option.some (JVal.jnum p.timestamp) := by
  refine ⟨rfl, ?_⟩
  cases p <;> rfl

/-- C9: `start_worker_thread` spawns exactly one thread when none is alive
and is a warning-logged no-op when one is; `stop_worker_thread` is a
warning-logged no-op when no thread is alive; a second start after a
successful start spawns nothing. -/
theorem c9_lifecycle_idempotent (s : WorkerLifecycle) :
    ((startWorkerThread s).threadsSpawned =
      if s.threadAlive then 0 else 1) ∧
    (s.threadAlive = true → startWorkerThread s =
      { state := s, threadsSpawned := 0, sentinelEnqueued := false,
        logs := [LogEntry.warning
          "Attempted to start worker thread, but it is already running."] }) ∧
    (s.threadAlive = false → stopWorkerThread s =
      { state := s, threadsSpawned := 0, sentinelEnqueued := false,
        logs := [LogEntry.warning
          "Attempted to stop worker thread, but it was not running."] }) ∧
    (s.threadAlive = false →
      (startWorkerThread s).state.threadAlive = true ∧
      (startWorkerThread s).threadsSpawned = 1) ∧
    (startWorkerThread (startWorkerThread s).state).threadsSpawned = 0 := by
  obtain ⟨ta, rf⟩ := s
  cases ta <;> simp [startWorkerThread, stopWorkerThread]

/-- Witness for C9: start on a live thread and stop on a dead one are
warning-logged no-ops, and a start right after a successful start spawns no
second thread. -/
theorem c9_lifecycle_idempotent_witness :
    (aliveLifecycle.threadAlive = true ∧
      startWorkerThread aliveLifecycle =
        { state := aliveLifecycle, threadsSpawned := 0,
          sentinelEnqueued := false,
          logs := [LogEntry.warning
            "Attempted to start worker thread, but it is already running."] }) ∧
    (deadLifecycle.threadAlive = false ∧
      stopWorkerThread deadLifecycle =
        { state := deadLifecycle, threadsSpawned := 0,
          sentinelEnqueued := false,
          logs := [LogEntry.warning
            "Attempted to stop worker thread, but it was not running."] }) ∧
    (startWorkerThread (startWorkerThread deadLifecycle).state).threadsSpawned
      = 0 :=
  ⟨⟨rfl, (c9_lifecycle_idempotent aliveLifecycle).2.1 rfl⟩,
    ⟨rfl, (c9_lifecycle_idempotent deadLifecycle).2.2.1 rfl⟩,
    (c9_lifecycle_idempotent deadLifecycle).2.2.2.2⟩

/-- C10: a config entry whose three values name, pin and type are all
present but any of them falsy under Python truthiness — such as pin `0` or
an empty name — is logged as an invalid config and skipped, and the loop
continues to initialize the remaining entries exactly as it would without
the skipped one. -/
theorem c10_truthiness_skips_entry (raisesOnInit : String → PyVal → Bool)
    (conf : List (String × PyVal)) (cs : List (List (String × PyVal)))
    (hname : (List.lookup "name" conf).isSome = true)
    (hpin : (List.lookup "pin" conf).isSome = true)
    (htype : (List.lookup "type" conf).isSome = true)
    (hfalsy : (truthy (dictGet conf "name") && truthy (dictGet conf "pin") &&
        truthy (dictGet conf "type")) = false) :
    initGpioDevices raisesOnInit (conf :: cs) =
      { devices := (initGpioDevices raisesOnInit cs).devices,
        logs := InitEvent.errorInvalidConfig conf ::
          (initGpioDevices raisesOnInit cs).logs } := by
  unfold initGpioDevices
  rw [List.foldl_cons]
  have hstep : initGpioStep raisesOnInit { devices := [], logs := [] } conf =
      { devices := [], logs := [InitEvent.errorInvalidConfig conf] } := by
    simp [initGpioStep, initGpioOne, hfalsy]
  rw [hstep, initGpio_foldl_logs raisesOnInit cs []
    [InitEvent.errorInvalidConfig conf]]
  simp

/-- Witness for C10: the pin-0 Button entry has all three keys yet is
skipped as invalid, while the LED entry after it is still initialized. -/
theorem c10_truthiness_skips_entry_witness :
    (List.lookup "name" pinZeroButtonConf).isSome = true ∧
    (List.lookup "pin" pinZeroButtonConf).isSome = true ∧
    (List.lookup "type" pinZeroButtonConf).isSome = true ∧
    (truthy (dictGet pinZeroButtonConf "name") &&
      truthy (dictGet pinZeroButtonConf "pin") &&
      truthy (dictGet pinZeroButtonConf "type")) = false ∧
    initGpioDevices (fun _ _ => false) (pinZeroButtonConf :: [ledConf]) =
      { devices := (initGpioDevices (fun _ _ => false) [ledConf]).devices,
        logs := InitEvent.errorInvalidConfig pinZeroButtonConf ::
          (initGpioDevices (fun _ _ => false) [ledConf]).logs } :=
  ⟨by decide, by decide, by decide, by decide,
    c10_truthiness_skips_entry (fun _ _ => false) pinZeroButtonConf [ledConf]
      (by decide) (by decide) (by decide) (by decide)⟩

end PiMqttGpio
